import Mathlib

/-!
Verification of an API-gateway request pipeline (Go source) against its
natural-language specification.  The Go code is shallowly embedded: Go maps
become association lists over `String` keys, pointers and in-place map
mutation become explicit value passing (functions that may mutate an input
through a shared map return both the new value and the caller-visible state
of the original), the Redis key-value store becomes an explicit store value
threaded through the operations, and fallible Go functions return `Except`.
-/

set_option autoImplicit false

namespace Gw

/-- Association-list lookup over string keys; the model of reading a Go map. -/
def alookup {α : Type} : List (String × α) → String → Option α
  | [], _ => none
  | p :: rest, k => if p.1 = k then some p.2 else alookup rest k

/-- Association-list update: replace the binding of `k` if present, else append.
The model of Go map assignment `m[k] = v`. -/
def aset {α : Type} : List (String × α) → String → α → List (String × α)
  | [], k, v => [(k, v)]
  | p :: rest, k, v => if p.1 = k then (k, v) :: rest else p :: aset rest k v

/-- HTTP headers: Go's `map[string][]string`. -/
abbrev Headers := List (String × List String)

/-- Whether a header key is present (Go `_, ok := m[k]`). -/
def hContains (h : Headers) (k : String) : Bool :=
  (alookup h k).isSome

/-- `Endpoint.CircuitBreaker` config block (source `entity/service.go`).
The `failureThreshold` is a Go `float64` configuration value; it is not used
by any verified operation and is modelled as a rational number. -/
structure CircuitBreakerCfg where
  enabled : Bool
  failureThreshold : Rat
  minRequestCount : Int
  breakDuration : Int
  halfOpenRequests : Int
deriving Repr, DecidableEq

/-- `Endpoint.Cache` config block (source `entity/service.go`). -/
structure CacheCfg where
  enabled : Bool
  ttl : Int
deriving Repr, DecidableEq

/-- `Endpoint.Transform` config block (source `entity/service.go`). -/
structure TransformCfg where
  request : List (String × String)
  response : List (String × String)
deriving Repr, DecidableEq

/-- `entity.Endpoint` (source `internal/domain/entity/service.go`). -/
structure Endpoint where
  path : String
  methods : List String
  rateLimit : Int
  authRequired : Bool
  timeout : Int
  retryCount : Int
  retryDelay : Int
  cacheTTL : Int
  circuitBreaker : CircuitBreakerCfg
  cache : CacheCfg
  transform : TransformCfg
deriving Repr, DecidableEq

/-- `entity.Service` (source `internal/domain/entity/service.go`). -/
structure Service where
  id : String
  name : String
  version : String
  description : String
  baseURL : String
  timeout : Int
  retryCount : Int
  isActive : Bool
  metadata : List (String × String)
  endpoints : List Endpoint
deriving Repr, DecidableEq

/-- `entity.Request` (source `internal/domain/entity`; fields as constructed by
`NewRequest` and used by the pipeline).  `headers`/`queryParams` are `Option`
because a Go map can be `nil`; the body byte slice is modelled as a string. -/
structure Request where
  id : String
  method : String
  path : String
  headers : Option Headers
  queryParams : Option Headers
  body : String
  clientIP : String
  timestamp : Nat
  authenticated : Bool
  userID : String
  timeout : Int
deriving Repr, DecidableEq

/-- `entity.Response` (source `internal/domain/entity/response.go`). -/
structure Response where
  requestID : String
  statusCode : Int
  headers : Option Headers
  body : String
  contentType : String
  contentLength : Int
  timestamp : Nat
  latencyMs : Int
  cachedResult : Bool
deriving Repr, DecidableEq

/-- The typed errors of `pkg/errors` plus the `fmt.Errorf` failures the
pipeline produces, collapsed into one error type. -/
inductive GwError where
  | notFound
  | alreadyExists
  | serviceNotFound
  | endpointNotFound
  | invalidRequest
  | invalidMethod
  | invalidPath
  | authFailed
  | unauthorized
  | authzFailed
  | rateLimitExceeded
  | routeFailed
  | invalidToken
  | tokenExpired
deriving Repr, DecidableEq

/-- `Service.FindEndpoint` (source `entity/service.go:80-91`): first endpoint
whose path equals `path` and whose methods list contains `method` exactly
(the source has no `*` wildcard case here). -/
def Service.FindEndpoint (s : Service) (path method : String) : Option Endpoint :=
  s.endpoints.find? (fun e => decide (e.path = path) && e.methods.any (fun m => decide (m = method)))

/-- One endpoint test of `ServiceRepositoryMock.GetByEndpoint` (source
`service_repository_mock.go:139-148`): the path must be equal and some entry
of the methods list must equal the request method or be the `*` wildcard. -/
def endpointMatches (e : Endpoint) (path method : String) : Bool :=
  decide (e.path = path) && e.methods.any (fun m => decide (m = method) || decide (m = "*"))

/-- Whether a service has at least one endpoint matching path and method. -/
def serviceMatches (s : Service) (path method : String) : Bool :=
  s.endpoints.any (fun e => endpointMatches e path method)

/-- The accumulation loop of `ServiceRepositoryMock.GetByEndpoint`
(source `service_repository_mock.go:137-150`).  The Go code iterates the
repository map's values; the map is modelled as the list `services` in
iteration order.  Note the source appends the service once per matching
endpoint (the `break` only leaves the inner methods loop). -/
def mockMatches : List Service → String → String → List Service
  | [], _, _ => []
  | s :: rest, path, method =>
      (s.endpoints.filter (fun e => endpointMatches e path method)).map (fun _ => s)
        ++ mockMatches rest path method

/-- `ServiceRepositoryMock.GetByEndpoint` (source
`service_repository_mock.go:133-157`): collect matching services; an empty
result is the error `ErrNotFound`, not an empty success. -/
def GetByEndpoint (services : List Service) (path method : String) :
    Except GwError (List Service) :=
  if mockMatches services path method = [] then .error .notFound
  else .ok (mockMatches services path method)

/-- Service/endpoint resolution of `ProxyUseCase.ProxyRequest` (source
`proxy_usecase.go:50-74`): look up services by (path, method), take the first,
then select the first endpoint whose path equals the request path.  The
endpoint-selection loop tests only `e.Path == request.Path`; the request
method plays no role in it. -/
def proxyResolve (services : List Service) (path method : String) :
    Except GwError (Service × Endpoint) :=
  match GetByEndpoint services path method with
  | .error e => .error e
  | .ok [] => .error .serviceNotFound
  | .ok (svc :: _) =>
    match svc.endpoints.find? (fun e => decide (e.path = path)) with
    | none => .error .endpointNotFound
    | some ep => .ok (svc, ep)

/-- `GatewayService.TransformRequest` (source `client` package, lines 40-62).
The Go code builds a new `Request` struct literal that shares the caller's
headers map (`Headers: request.Headers`); fields not listed in the literal
(`Authenticated`, `Timeout`) get their zero values.  It then makes a fresh
map only when the shared one is `nil`, and writes the two service headers
into it.  Because that map write is visible through the caller's request
whenever the original map was non-nil, the embedding returns a pair:
`(transformed request, caller's request as observable after the call)`. -/
def TransformRequest (req : Request) (svc : Service) : Request × Request :=
  let h0 : Headers := match req.headers with
    | none => []
    | some h => h
  let h1 : Headers := aset (aset h0 "X-Service-ID" [svc.id]) "X-Service-Name" [svc.name]
  let transformed : Request :=
    { id := req.id
      method := req.method
      path := req.path
      headers := some h1
      queryParams := req.queryParams
      body := req.body
      clientIP := req.clientIP
      timestamp := req.timestamp
      authenticated := false
      userID := req.userID
      timeout := 0 }
  let origAfter : Request := match req.headers with
    | none => req
    | some _ => { req with headers := some h1 }
  (transformed, origAfter)

/-- `GatewayService.TransformResponse` (source `client` package, lines 76-97).
Same shape as `TransformRequest`: a new struct sharing the headers map, the
two service headers written into that map, `ContentLength` left at its zero
value.  Returns `(transformed response, original as observable after)`. -/
def TransformResponse (resp : Response) (svc : Service) : Response × Response :=
  let h0 : Headers := match resp.headers with
    | none => []
    | some h => h
  let h1 : Headers := aset (aset h0 "X-Service-ID" [svc.id]) "X-Service-Name" [svc.name]
  let transformed : Response :=
    { requestID := resp.requestID
      statusCode := resp.statusCode
      headers := some h1
      body := resp.body
      contentType := resp.contentType
      contentLength := 0
      timestamp := resp.timestamp
      latencyMs := resp.latencyMs
      cachedResult := resp.cachedResult }
  let origAfter : Response := match resp.headers with
    | none => resp
    | some _ => { resp with headers := some h1 }
  (transformed, origAfter)

/-- The eight hop-by-hop header names of the specification. -/
def hopByHopHeaders : List String :=
  ["Connection", "Keep-Alive", "Proxy-Authenticate", "Proxy-Authorization",
   "TE", "Trailers", "Transfer-Encoding", "Upgrade"]

/-! ### Token-bucket rate limiter (`infrastructure/ratelimit/token_bucket.go`)

The Redis counter store is modelled explicitly.  An entry records the
integer value of the key and the TTL attached to it by `EXPIRE`
(`none` = no expiration, the state of a key created by bare `DECR`).
Redis `DECR` on a missing key sets it to 0 and then decrements, so a
fresh key holds `-1` and carries no expiration. -/

/-- A Redis counter entry: its value and the TTL (in seconds) attached to it,
if any. -/
structure RLEntry where
  value : Int
  expiry : Option Nat
deriving Repr, DecidableEq

abbrev RLStore := List (String × RLEntry)

/-- The rate-limit key `"ratelimit:" + serviceID + ":" + path + ":" + clientIP`
(source `token_bucket.go:30`). -/
def rlKey (svcID path clientIP : String) : String :=
  "ratelimit:" ++ svcID ++ ":" ++ path ++ ":" ++ clientIP

/-- Redis `DECR`: missing keys are set to 0 before decrementing, and a key
created this way has no expiration. -/
def rlDecr (st : RLStore) (k : String) : Int × RLStore :=
  match alookup st k with
  | some e => (e.value - 1, aset st k { e with value := e.value - 1 })
  | none => (-1, st ++ [(k, { value := -1, expiry := none })])

/-- Redis `EXPIRE`: attach a TTL to an existing key. -/
def rlExpire (st : RLStore) (k : String) (ttl : Nat) : RLStore :=
  match alookup st k with
  | some e => aset st k { e with expiry := some ttl }
  | none => st

/-- `TokenBucketRateLimiter.CheckLimit` (source `token_bucket.go:29-49`):
read the counter, treat a missing key as `endpoint.RateLimit`, and allow
the request iff the count is positive. -/
def CheckLimit (st : RLStore) (req : Request) (svc : Service) (ep : Endpoint) : Bool :=
  let key := rlKey svc.id req.path req.clientIP
  let count : Int := match alookup st key with
    | none => ep.rateLimit
    | some e => e.value
  decide (0 < count)

/-- `TokenBucketRateLimiter.RecordRequest` (source `token_bucket.go:52-67`):
`DECR` the key, and attach the one-minute expiration only when the value
returned by the decrement equals `endpoint.RateLimit - 1`. -/
def RecordRequest (st : RLStore) (req : Request) (svc : Service) (ep : Endpoint) : RLStore :=
  let key := rlKey svc.id req.path req.clientIP
  let r := rlDecr st key
  if r.1 = ep.rateLimit - 1 then rlExpire r.2 key 60 else r.2

/-! ### Response cache (`infrastructure/cache`)

`RedisCache.Set` JSON-marshals the value and stores the bytes; `RedisCache.Get`
unmarshals into a bare `interface` value, which for a marshalled `Response`
yields a generic JSON map, never a typed `*entity.Response`.  `GoValue`
distinguishes the two shapes so the pipeline's type assertion can be modelled
faithfully. -/

/-- A cache entry: the `Response` whose JSON marshalling is stored under the
key, and the expiration attached by `SET` (`none` when the TTL argument was
zero, Redis `SET` without expiration). -/
structure CacheEntry where
  data : Response
  expiry : Option Int
deriving Repr, DecidableEq

abbrev CacheStore := List (String × CacheEntry)

/-- A Go `interface` value as seen by the pipeline's cache branch: either a
typed `*entity.Response` pointer, or the generic map produced by
`json.Unmarshal` into `*interface`. -/
inductive GoValue where
  | respPtr (r : Response)
  | jsonAny (r : Response)
deriving Repr, DecidableEq

/-- `RedisCache.Set` (source `redis_cache.go:28-39`): marshal and store with
the given TTL seconds; a TTL of zero stores without expiration. -/
def RedisSet (st : CacheStore) (key : String) (v : GoValue) (ttl : Int) : CacheStore :=
  let r := match v with
    | .respPtr r => r
    | .jsonAny r => r
  aset st key { data := r, expiry := if ttl = 0 then none else some ttl }

/-- `RedisCache.Get` (source `redis_cache.go:42-56`): a missing key is
`ErrNotFound`; a present key is unmarshalled into a bare `interface` value,
producing the generic JSON shape. -/
def RedisGet (st : CacheStore) (key : String) : Except GwError GoValue :=
  match alookup st key with
  | none => .error .notFound
  | some e => .ok (.jsonAny e.data)

/-- `CacheServiceAdapter.Get` (source `cache_service.go:24-31`): propagate the
store error, otherwise report the unmarshalled value with `found = true`. -/
def AdapterGet (st : CacheStore) (key : String) : Except GwError (GoValue × Bool) :=
  match RedisGet st key with
  | .error e => .error e
  | .ok v => .ok (v, true)

/-- `CacheServiceAdapter.Set` (source `cache_service.go:34-36`): delegate to
the store. -/
def AdapterSet (st : CacheStore) (key : String) (v : GoValue) (ttl : Int) : CacheStore :=
  RedisSet st key v ttl

/-! ### Cache `Clear` and key namespaces (`cache_service.go:44-46`,
`redis_cache.go:113-126`)

`Clear` scans the shared Redis keyspace with a glob pattern and deletes every
matching key.  The shared keyspace (which also holds the rate limiter's
`ratelimit:`-prefixed counters) is modelled as a plain string store. -/

abbrev KVStore := List (String × String)

/-- Fuel-indexed core of Redis `MATCH`-style glob matching for the pattern
forms the code uses (`*` wildcard, `?` single character, literal
characters).  Every recursive call decreases both the fuel and the summed
length of the two lists, so a fuel exceeding that sum never runs out. -/
def globMatchAux : Nat → List Char → List Char → Bool
  | _, [], [] => true
  | Nat.succ n, p :: ps, [] => if p = '*' then globMatchAux n ps [] else false
  | Nat.succ n, p :: ps, c :: cs =>
      if p = '*' then globMatchAux n ps (c :: cs) || globMatchAux n (p :: ps) cs
      else if p = '?' then globMatchAux n ps cs
      else decide (p = c) && globMatchAux n ps cs
  | _, _, _ => false

/-- Redis `MATCH`-style glob matching. -/
def globMatch (p s : List Char) : Bool :=
  globMatchAux (p.length + s.length + 1) p s

/-- `RedisCache.Clear` (source `redis_cache.go:113-126`): delete every key of
the store matching the glob pattern. -/
def RedisClear (st : KVStore) (pattern : String) : KVStore :=
  st.filter (fun p => !(globMatch pattern.toList p.1.toList))

/-- `CacheServiceAdapter.Clear` (source `cache_service.go:44-46`): clears with
the pattern `"*"`. -/
def CacheClear (st : KVStore) : KVStore :=
  RedisClear st "*"

/-! ### The proxy pipeline (`application/usecase/proxy_usecase.go:44-152`)

`ProxyUseCase` receives its collaborators by injection; the auth service and
the backend HTTP call are kept as function parameters, while the rate
limiter, the cache and the gateway transformations are wired to the
embeddings above.  The mutable Redis state is threaded explicitly, and the
outcome records whether the backend was invoked. -/

/-- The injected collaborators of `ProxyUseCase` that stay abstract:
`AuthService.Authenticate`/`Authorize` and the backend call performed by
`GatewayService.RouteRequest`. -/
structure ProxyDeps where
  authenticate : Request → Except GwError (Bool × String)
  authorize : Request → Service → Endpoint → Except GwError Unit
  backend : Request → Except GwError Response

/-- The shared Redis-backed state touched by one pipeline run. -/
structure GatewayState where
  rl : RLStore
  cache : CacheStore
deriving Repr, DecidableEq

/-- Result of one pipeline run: the response or error, the state after the
run, and whether the backend was called. -/
structure ProxyOutcome where
  result : Except GwError Response
  state : GatewayState
  backendCalled : Bool

/-- The cache key `service.ID + ":" + request.Path + ":" + request.Method`
(source `proxy_usecase.go:115` and `145`). -/
def proxyCacheKey (svcID path method : String) : String :=
  svcID ++ ":" ++ path ++ ":" ++ method

/-- `ProxyUseCase.ProxyRequest` (source `proxy_usecase.go:44-152`):
validate, resolve service and endpoint, authenticate/authorize when the
endpoint requires it, check and record the rate limit, look in the cache
(serving a hit only when the stored value type-asserts to `*entity.Response`,
which the generic unmarshalled value never does), transform and forward the
request, transform the response, and cache it with a TTL argument of `0`. -/
def ProxyRequest (deps : ProxyDeps) (services : List Service) (req : Request)
    (st : GatewayState) : ProxyOutcome :=
  if req.method = "" then ⟨.error .invalidMethod, st, false⟩
  else if req.path = "" then ⟨.error .invalidPath, st, false⟩
  else
    match proxyResolve services req.path req.method with
    | .error e => ⟨.error e, st, false⟩
    | .ok (svc, ep) =>
      let authRes : Except GwError Request :=
        if ep.authRequired then
          match deps.authenticate req with
          | .error _ => .error .authFailed
          | .ok (false, _) => .error .unauthorized
          | .ok (true, uid) =>
            let req1 : Request := { req with userID := uid }
            match deps.authorize req1 svc ep with
            | .error _ => .error .authzFailed
            | .ok _ => .ok req1
        else .ok req
      match authRes with
      | .error e => ⟨.error e, st, false⟩
      | .ok req1 =>
        let afterRl : GatewayState → ProxyOutcome := fun st1 =>
          let ckey := proxyCacheKey svc.id req1.path req1.method
          let cacheHit : Option Response :=
            if 0 < ep.cacheTTL then
              match AdapterGet st1.cache ckey with
              | .ok (v, true) =>
                match v with
                | .respPtr r => some { r with cachedResult := true }
                | .jsonAny _ => none
              | _ => none
            else none
          match cacheHit with
          | some r => ⟨.ok r, st1, false⟩
          | none =>
            let treq := (TransformRequest req1 svc).1
            match deps.backend treq with
            | .error _ => ⟨.error .routeFailed, st1, true⟩
            | .ok resp =>
              let tresp := (TransformResponse resp svc).1
              let st2 : GatewayState :=
                if 0 < ep.cacheTTL then
                  { st1 with cache := AdapterSet st1.cache ckey (.respPtr tresp) 0 }
                else st1
              ⟨.ok tresp, st2, true⟩
        if 0 < ep.rateLimit then
          if CheckLimit st.rl req1 svc ep then
            afterRl { st with rl := RecordRequest st.rl req1 svc ep }
          else ⟨.error .rateLimitExceeded, st, false⟩
        else afterRl st

/-! ### JWT issuance and validation (`infrastructure/auth/jwt_auth.go`)

Claim values are modelled by a small JSON-value type, claim maps by
association lists.  The external signing library (out of scope per the
specification, interface `sign(claims) -> string` / `verify(string) ->
claims | error`) is modelled abstractly: a signed token carries its claims,
its algorithm name and the key it was signed with, and verification succeeds
exactly when the algorithm is the HMAC one the key function accepts, the key
matches, and the `exp` claim (a number, when present) lies in the future —
the default registered-claim validation of the `jwt/v5` library. -/

/-- A JSON claim value. -/
inductive JValue where
  | jstr (s : String)
  | jnum (n : Int)
  | jbool (b : Bool)
deriving Repr, DecidableEq

abbrev Claims := List (String × JValue)

/-- The configuration of `JWTAuth` (secret key, issuer, expiration in
seconds). -/
structure JWTConfig where
  secretKey : String
  issuer : String
  expiration : Int
deriving Repr, DecidableEq

/-- A signed token as the abstract signer produces it. -/
structure SignedToken where
  claims : Claims
  alg : String
  signKey : String
deriving Repr, DecidableEq

/-- `JWTAuth.GenerateToken` (source `jwt_auth.go:106-122`): build the map
`iss`/`sub`/`iat`/`exp` and then insert every custom claim — the insertion
loop runs after the standard claims are set, so a custom claim under the
same key overwrites the standard one.  `now` is the issuance time in unix
seconds. -/
def GenerateToken (cfg : JWTConfig) (now : Int) (userID : String) (custom : Claims) :
    SignedToken :=
  let base : Claims :=
    [("iss", .jstr cfg.issuer), ("sub", .jstr userID),
     ("iat", .jnum now), ("exp", .jnum (now + cfg.expiration))]
  let tokenClaims := custom.foldl (fun acc kv => aset acc kv.1 kv.2) base
  { claims := tokenClaims, alg := "HS256", signKey := cfg.secretKey }

/-- `JWTAuth.ValidateToken` (source `jwt_auth.go:125-147`): the key function
rejects non-HMAC algorithms, verification rejects a wrong key, and the
library's default validation rejects an `exp` not in the future.  `now` is
the validation time in unix seconds. -/
def ValidateToken (cfg : JWTConfig) (now : Int) (tok : SignedToken) :
    Except GwError Claims :=
  if tok.alg ≠ "HS256" then .error .invalidToken
  else if tok.signKey ≠ cfg.secretKey then .error .invalidToken
  else
    match alookup tok.claims "exp" with
    | some (.jnum e) => if now < e then .ok tok.claims else .error .tokenExpired
    | some _ => .error .invalidToken
    | none => .ok tok.claims

/-! ### In-memory service registry (`domain/repository/mock/service_repository_mock.go`)

The registry's Go map `map[string]*entity.Service` is modelled as an
association list from IDs to services. -/

abbrev MockRepo := List (String × Service)

/-- `ServiceRepositoryMock.Create` (source `service_repository_mock.go:26-44`):
reject a duplicate name with `ErrAlreadyExists`, assign the ID `"test-id"`
when the ID is empty, and store under the ID.  Returns the new repository
and the stored service (the Go code mutates `service.ID` in place). -/
def Create (repo : MockRepo) (svc : Service) : Except GwError (MockRepo × Service) :=
  if repo.any (fun p => decide (p.2.name = svc.name)) then .error .alreadyExists
  else
    let svc1 := if svc.id = "" then { svc with id := "test-id" } else svc
    .ok (aset repo svc1.id svc1, svc1)

/-- `ServiceRepositoryMock.Update` (source `service_repository_mock.go:65-82`):
`ErrNotFound` when the ID is absent, `ErrAlreadyExists` when another stored
service (a different ID) carries the new name, otherwise replace the stored
service wholesale. -/
def Update (repo : MockRepo) (svc : Service) : Except GwError MockRepo :=
  if (alookup repo svc.id).isNone then .error .notFound
  else if repo.any (fun p => decide (p.2.name = svc.name) && !decide (p.2.id = svc.id)) then
    .error .alreadyExists
  else .ok (aset repo svc.id svc)

/-! ### Concrete inputs used by counterexamples and witnesses -/

/-- An endpoint literal with the policy fields the claims exercise; all other
configuration is zeroed. -/
def mkEndpoint (path : String) (methods : List String) (rateLimit : Int)
    (authRequired : Bool) (cacheTTL : Int) : Endpoint :=
  { path := path
    methods := methods
    rateLimit := rateLimit
    authRequired := authRequired
    timeout := 0
    retryCount := 0
    retryDelay := 0
    cacheTTL := cacheTTL
    circuitBreaker :=
      { enabled := false, failureThreshold := 0, minRequestCount := 0
        breakDuration := 0, halfOpenRequests := 0 }
    cache := { enabled := false, ttl := 0 }
    transform := { request := [], response := [] } }

/-- A service literal. -/
def mkService (id name : String) (isActive : Bool) (endpoints : List Endpoint) : Service :=
  { id := id, name := name, version := "1", description := "", baseURL := "http://backend"
    timeout := 30, retryCount := 0, isActive := isActive, metadata := []
    endpoints := endpoints }

/-- A request literal. -/
def mkRequest (method path : String) (headers : Option Headers) (clientIP : String) : Request :=
  { id := "req-1", method := method, path := path, headers := headers, queryParams := none
    body := "", clientIP := clientIP, timestamp := 0, authenticated := false, userID := ""
    timeout := 30 }

/-- Endpoint declared first on path `/p`, accepting only POST. -/
def c1ep1 : Endpoint := mkEndpoint "/p" ["POST"] 0 false 0

/-- Endpoint declared second on path `/p`, accepting GET. -/
def c1ep2 : Endpoint := mkEndpoint "/p" ["GET"] 0 false 0

/-- A service exposing both `/p` endpoints. -/
def c1svc : Service := mkService "s1" "svc1" true [c1ep1, c1ep2]

/-- Endpoint with a rate limit of 2. -/
def c2ep : Endpoint := mkEndpoint "/v1/users" ["GET"] 2 false 0

/-- The service owning `c2ep`. -/
def c2svc : Service := mkService "s2" "users" true [c2ep]

/-- A GET request against `c2ep`. -/
def c2req : Request := mkRequest "GET" "/v1/users" none "10.0.0.1"

/-- Endpoint with a 30-second cache TTL. -/
def c4ep : Endpoint := mkEndpoint "/v1/report" ["GET"] 0 false 30

/-- The service owning `c4ep`. -/
def c4svc : Service := mkService "s4" "reports" true [c4ep]

/-- A GET request against `c4ep`. -/
def c4req : Request := mkRequest "GET" "/v1/report" none "10.0.0.2"

/-- The backend's fixed answer for the cache round-trip scenario. -/
def c4backendResp : Response :=
  { requestID := "req-1", statusCode := 200
    headers := some [("Content-Type", ["application/json"])]
    body := "x", contentType := "application/json", contentLength := 1
    timestamp := 0, latencyMs := 1, cachedResult := false }

/-- Pipeline collaborators for the cache scenario: anonymous auth and a
backend returning `c4backendResp`. -/
def c4deps : ProxyDeps :=
  { authenticate := fun _ => .ok (false, "")
    authorize := fun _ _ _ => .ok ()
    backend := fun _ => .ok c4backendResp }

/-- The response the pipeline stores and returns in the cache scenario. -/
def c4tresp : Response := (TransformResponse c4backendResp c4svc).1

/-- First pipeline run of the cache scenario, from empty state. -/
def c4run1 : ProxyOutcome := ProxyRequest c4deps [c4svc] c4req { rl := [], cache := [] }

/-- Second, identical pipeline run, on the state the first run left. -/
def c4run2 : ProxyOutcome := ProxyRequest c4deps [c4svc] c4req c4run1.state

/-- A request carrying two hop-by-hop headers. -/
def c5req : Request :=
  mkRequest "GET" "/p" (some [("Connection", ["keep-alive"]), ("Upgrade", ["h2c"])]) "ip"

/-- A response carrying a hop-by-hop header. -/
def c5resp : Response :=
  { requestID := "req-1", statusCode := 200
    headers := some [("Transfer-Encoding", ["chunked"])]
    body := "", contentType := "application/json", contentLength := 0
    timestamp := 0, latencyMs := 0, cachedResult := false }

/-- A service used by the transformation scenarios. -/
def c5svc : Service := mkService "s5" "svc5" true []

/-- An inactive service whose endpoint matches `GET /p`. -/
def c6inactive : Service := mkService "s6" "inact" false [mkEndpoint "/p" ["GET"] 0 false 0]

/-- A request whose headers map is non-nil. -/
def c8req : Request := mkRequest "GET" "/p" (some [("Accept", ["text/plain"])]) "ip"

/-- A stored service for the registry scenarios. -/
def c7svcA : Service := mkService "id1" "users" true [mkEndpoint "/u" ["GET"] 0 false 0]

/-- A second stored service with a different name. -/
def c7svcB : Service := mkService "id2" "orders" true [mkEndpoint "/o" ["GET"] 0 false 0]

/-- The JWT configuration of the token scenarios. -/
def c10cfg : JWTConfig := { secretKey := "secret", issuer := "gw", expiration := 3600 }

/-! ### Helper lemmas on the association-list operations -/

theorem alookup_aset_self {α : Type} (l : List (String × α)) (k : String) (v : α) :
    alookup (aset l k v) k = some v := by
  induction l with
  | nil => simp [aset, alookup]
  | cons p t ih =>
    by_cases hp : p.1 = k <;> simp [aset, alookup, hp, ih]

theorem alookup_aset_ne {α : Type} (l : List (String × α)) (k k' : String) (v : α)
    (hne : k' ≠ k) : alookup (aset l k' v) k = alookup l k := by
  induction l with
  | nil => simp [aset, alookup, hne]
  | cons p t ih =>
    by_cases hp : p.1 = k' <;> simp [aset, alookup, hp, hne, ih]

theorem hContains_aset_self (h : Headers) (k : String) (v : List String) :
    hContains (aset h k v) k = true := by
  simp [hContains, alookup_aset_self]

theorem hContains_aset (h : Headers) (k k' : String) (v : List String)
    (hc : hContains h k = true) : hContains (aset h k' v) k = true := by
  by_cases he : k' = k
  · subst he; exact hContains_aset_self h k' v
  · simpa [hContains, alookup_aset_ne h k k' v he] using hc

theorem find?_eq_head?_filter {α : Type} (p : α → Bool) (l : List α) :
    l.find? p = (l.filter p).head? := by
  induction l with
  | nil => rfl
  | cons a t ih =>
    by_cases hp : p a
    · rw [List.find?_cons_of_pos _ hp, List.filter_cons_of_pos hp]
      rfl
    · rw [List.find?_cons_of_neg _ (by simpa using hp),
        List.filter_cons_of_neg (by simpa using hp)]
      exact ih

theorem mem_mockMatches (path method : String) (s : Service) (services : List Service) :
    s ∈ mockMatches services path method ↔
      s ∈ services ∧ serviceMatches s path method = true := by
  induction services with
  | nil => simp [mockMatches]
  | cons a t ih =>
    simp only [mockMatches, List.mem_append, List.mem_cons, ih]
    constructor
    · rintro (hmem | ⟨ht, hm⟩)
      · rcases List.mem_map.mp hmem with ⟨e, he, rfl⟩
        rcases List.mem_filter.mp he with ⟨he1, he2⟩
        exact ⟨Or.inl rfl, List.any_eq_true.mpr ⟨e, he1, he2⟩⟩
      · exact ⟨Or.inr ht, hm⟩
    · rintro ⟨ha | ht, hm⟩
      · subst ha
        rcases List.any_eq_true.mp hm with ⟨e, he, hme⟩
        exact Or.inl (List.mem_map.mpr ⟨e, List.mem_filter.mpr ⟨he, hme⟩, rfl⟩)
      · exact Or.inr ⟨ht, hm⟩

theorem serviceMatches_false_iff_filter_nil (s : Service) (path method : String) :
    serviceMatches s path method = false ↔
      s.endpoints.filter (fun e => endpointMatches e path method) = [] := by
  simp [serviceMatches, List.any_eq_false, List.filter_eq_nil_iff]

theorem mockMatches_eq_nil (path method : String) (services : List Service) :
    mockMatches services path method = [] ↔
      ∀ s ∈ services, serviceMatches s path method = false := by
  induction services with
  | nil => simp [mockMatches]
  | cons a t ih =>
    simp only [mockMatches, List.append_eq_nil, ih, List.map_eq_nil_iff]
    constructor
    · rintro ⟨h1, h2⟩ s hs
      rcases List.mem_cons.mp hs with rfl | hs
      · exact (serviceMatches_false_iff_filter_nil s path method).mpr h1
      · exact h2 s hs
    · intro hall
      refine ⟨(serviceMatches_false_iff_filter_nil a path method).mp
        (hall a (List.mem_cons_self a t)), ?_⟩
      intro s hs
      exact hall s (List.mem_cons_of_mem a hs)

theorem globMatchAux_nil_cons (n : Nat) (c : Char) (cs : List Char) :
    globMatchAux n [] (c :: cs) = false := by
  cases n <;> rfl

theorem globMatchAux_star (cs : List Char) :
    ∀ n, cs.length < n → globMatchAux n ['*'] cs = true := by
  induction cs with
  | nil =>
    intro n hn
    match n, hn with
    | Nat.succ m, _ => simp [globMatchAux]
  | cons c t ih =>
    intro n hn
    match n, hn with
    | Nat.succ m, hn =>
      have h2 : globMatchAux m ['*'] t = true := ih m (Nat.lt_of_succ_lt_succ hn)
      simp [globMatchAux, globMatchAux_nil_cons, h2]

theorem globMatch_star (cs : List Char) : globMatch ['*'] cs = true :=
  globMatchAux_star cs (1 + cs.length + 1) (by omega)

theorem alookup_foldl_aset (k : String) (custom : Claims) :
    ∀ base : Claims, alookup custom k = none →
      alookup (custom.foldl (fun acc kv => aset acc kv.1 kv.2) base) k = alookup base k := by
  induction custom with
  | nil => intro base _; rfl
  | cons kv t ih =>
    intro base hnone
    have h1 : kv.1 ≠ k := by
      intro he
      simp [alookup, he] at hnone
    have h2 : alookup t k = none := by
      simpa [alookup, h1] using hnone
    show alookup (t.foldl (fun acc kv => aset acc kv.1 kv.2) (aset base kv.1 kv.2)) k
      = alookup base k
    rw [ih (aset base kv.1 kv.2) h2, alookup_aset_ne base k kv.1 kv.2 h1]

/-! ### Claim C1 -/

/-- Claim C1, counterexample: for the service `c1svc` and request `GET /p`
the pipeline selects the first-declared endpoint `c1ep1`, whose methods list
is `["POST"]` and contains neither `GET` nor `*` — even though the
later-declared `c1ep2` matches both path and method.  This falsifies the
claim that an endpoint whose methods list matches neither the request method
nor `*` is never selected. -/
theorem c1_method_ignored_counterexample :
    proxyResolve [c1svc] "/p" "GET" = .ok (c1svc, c1ep1) ∧
    c1ep1.methods.contains "GET" = false ∧
    c1ep1.methods.contains "*" = false ∧
    c1ep2.path = "/p" ∧
    c1ep2.methods.contains "GET" = true :=
  ⟨rfl, rfl, rfl, rfl, rfl⟩

/-- Claim C1, amended: for every resolved service and incoming request, the
pipeline selects the first-declared endpoint of the first returned service
whose path is exactly string-equal to the request path, regardless of the
endpoint's methods list — the request method (and the `*` wildcard) is
consulted only when `GetByEndpoint` filters services, not when the endpoint
is chosen. -/
theorem c1_endpoint_selection_by_path_only
    (services : List Service) (path method : String) (s : Service) (e : Endpoint)
    (h : proxyResolve services path method = .ok (s, e)) :
    e.path = path ∧
    (s.endpoints.filter (fun ep => decide (ep.path = path))).head? = some e := by
  unfold proxyResolve at h
  cases hg : GetByEndpoint services path method with
  | error err => rw [hg] at h; cases h
  | ok ss =>
    rw [hg] at h
    cases ss with
    | nil => cases h
    | cons svc rest =>
      dsimp only at h
      cases hf : svc.endpoints.find? (fun ep => decide (ep.path = path)) with
      | none => rw [hf] at h; cases h
      | some ep =>
        rw [hf] at h
        dsimp only at h
        have hpe : svc = s ∧ ep = e := by simpa using h
        obtain ⟨hs, he⟩ := hpe
        subst hs
        subst he
        constructor
        · simpa using List.find?_some hf
        · rw [← find?_eq_head?_filter]
          exact hf

/-- Claim C1 witness: the amended selection property evaluated on the
two-endpoint service. -/
theorem c1_endpoint_selection_by_path_only_witness :
    c1ep1.path = "/p" ∧
    (c1svc.endpoints.filter (fun ep => decide (ep.path = "/p"))).head? = some c1ep1 :=
  c1_endpoint_selection_by_path_only [c1svc] "/p" "GET" c1svc c1ep1 rfl

/-! ### Claim C2 -/

/-- Claim C2 (code bug): with `rateLimit = 2` and an absent counter key, the
claim says `checkLimit` after one `recordRequest` (k = 1 < N = 2) still
returns `true`.  In the code, Redis `DECR` initializes the missing key to 0
and leaves `-1`, so the very next `checkLimit` already returns `false`. -/
theorem c2_rate_limiter_rejects_second_request :
    c2ep.rateLimit = 2 ∧
    CheckLimit [] c2req c2svc c2ep = true ∧
    CheckLimit (RecordRequest [] c2req c2svc c2ep) c2req c2svc c2ep = false :=
  ⟨rfl, rfl, rfl⟩

/-! ### Claim C3 -/

/-- Claim C3 (code bug): the claim says `recordRequest` on a fresh key creates
the counter at `rateLimit` before decrementing (leaving `rateLimit - 1 = 1`)
and attaches a 60-second expiration at creation.  The code's bare `DECR`
leaves `-1`, and since `-1 ≠ rateLimit - 1` the expiration branch never runs:
the stored entry is `⟨-1, none⟩`. -/
theorem c3_record_request_leaves_minus_one_without_ttl :
    alookup (RecordRequest [] c2req c2svc c2ep) (rlKey "s2" "/v1/users" "10.0.0.1") =
      some { value := -1, expiry := none } :=
  rfl

/-! ### Claim C4 -/

/-- Claim C4 (code bug): on an endpoint with `cacheTTL = 30`, the first run
stores the transformed response but with no expiration (the pipeline passes
a TTL of `0` to `Set`), and the second identical run still calls the backend
and returns a response with `cachedResult = false`: the value read back from
the cache is a generic unmarshalled JSON value, so the pipeline's
`*entity.Response` type assertion never succeeds and the cached copy is
never served. -/
theorem c4_cache_hit_never_served :
    c4run1.result = .ok c4tresp ∧
    alookup c4run1.state.cache (proxyCacheKey "s4" "/v1/report" "GET") =
      some { data := c4tresp, expiry := none } ∧
    c4run2.backendCalled = true ∧
    c4run2.result = .ok c4tresp ∧
    c4tresp.cachedResult = false :=
  ⟨rfl, rfl, rfl, rfl, rfl⟩

/-! ### Claim C5 -/

/-- Claim C5, counterexample: the transformed request still carries the
hop-by-hop header `Connection` and the transformed response still carries
`Transfer-Encoding`; the transformations strip nothing. -/
theorem c5_hop_by_hop_not_stripped_counterexample :
    ("Connection" ∈ hopByHopHeaders) ∧
    ("Transfer-Encoding" ∈ hopByHopHeaders) ∧
    hContains (((TransformRequest c5req c5svc).1).headers.getD []) "Connection" = true ∧
    hContains (((TransformResponse c5resp c5svc).1).headers.getD []) "Transfer-Encoding" = true :=
  ⟨by decide, by decide, rfl, rfl⟩

/-- Claim C5, amended: the request and response transformations strip no
headers at all — every header key present in the input headers map (hence in
particular each hop-by-hop header) is still present after transformation;
the transformations only add or overwrite `X-Service-ID` and
`X-Service-Name`. -/
theorem c5_headers_preserved (svc : Service) (h : Headers) (k : String)
    (hk : hContains h k = true) :
    (∀ req : Request, req.headers = some h →
      hContains (((TransformRequest req svc).1).headers.getD []) k = true) ∧
    (∀ resp : Response, resp.headers = some h →
      hContains (((TransformResponse resp svc).1).headers.getD []) k = true) := by
  constructor
  · intro req hreq
    simp only [TransformRequest, hreq, Option.getD_some]
    exact hContains_aset _ _ _ _ (hContains_aset _ _ _ _ hk)
  · intro resp hresp
    simp only [TransformResponse, hresp, Option.getD_some]
    exact hContains_aset _ _ _ _ (hContains_aset _ _ _ _ hk)

/-- Claim C5 witness: the preservation property evaluated on the concrete
request and response carrying hop-by-hop headers. -/
theorem c5_headers_preserved_witness :
    hContains (((TransformRequest c5req c5svc).1).headers.getD []) "Upgrade" = true :=
  (c5_headers_preserved c5svc
    [("Connection", ["keep-alive"]), ("Upgrade", ["h2c"])] "Upgrade" rfl).1 c5req rfl

/-! ### Claim C6 -/

/-- Claim C6, counterexample: `GetByEndpoint` returns the inactive service
`c6inactive` for `GET /p`; the active flag is never consulted. -/
theorem c6_inactive_service_returned_counterexample :
    GetByEndpoint [c6inactive] "/p" "GET" = .ok [c6inactive] ∧
    c6inactive.isActive = false :=
  ⟨rfl, rfl⟩

/-- Claim C6, amended: `GetByEndpoint` returns exactly the services —
regardless of their active flag — that have at least one endpoint whose path
equals the given path and whose methods list contains the given method or
`*`; when no service matches it fails with the `NotFound` error rather than
returning an empty success. -/
theorem c6_get_by_endpoint_characterization (services : List Service) (path method : String) :
    (∀ res, GetByEndpoint services path method = .ok res →
      ∀ s, s ∈ res ↔ (s ∈ services ∧ serviceMatches s path method = true)) ∧
    (GetByEndpoint services path method = .error .notFound ↔
      ∀ s ∈ services, serviceMatches s path method = false) := by
  unfold GetByEndpoint
  by_cases hnil : mockMatches services path method = []
  · constructor
    · intro res hres
      rw [if_pos hnil] at hres
      cases hres
    · rw [if_pos hnil]
      exact iff_of_true rfl ((mockMatches_eq_nil path method services).mp hnil)
  · constructor
    · intro res hres
      rw [if_neg hnil] at hres
      have hres2 : mockMatches services path method = res := by simpa using hres
      intro s
      rw [← hres2]
      exact mem_mockMatches path method s services
    · rw [if_neg hnil]
      constructor
      · intro hcontra
        cases hcontra
      · intro hall
        exact absurd ((mockMatches_eq_nil path method services).mpr hall) hnil

/-- Claim C6 witness: the characterization applied to the inactive service's
successful lookup. -/
theorem c6_get_by_endpoint_characterization_witness :
    c6inactive ∈ [c6inactive] :=
  ((c6_get_by_endpoint_characterization [c6inactive] "/p" "GET").1 [c6inactive] rfl
    c6inactive).mpr ⟨by simp, rfl⟩

/-! ### Claim C7 -/

/-- Claim C7: in the in-memory registry, `Create` with a name equal to a
stored service's name fails with `AlreadyExists`; `Update` renaming a stored
service to a name carried by a different stored service fails with
`AlreadyExists`; and `Update` of a stored ID whose new name collides with no
other service (in particular, re-submitting the service's own current name)
succeeds and replaces the stored record. -/
theorem c7_registry_name_uniqueness :
    (∀ (repo : MockRepo) (svc : Service),
        (∃ p ∈ repo, p.2.name = svc.name) → Create repo svc = .error .alreadyExists) ∧
    (∀ (repo : MockRepo) (svc : Service) (s0 : Service),
        alookup repo svc.id = some s0 →
        (∃ p ∈ repo, p.2.name = svc.name ∧ p.2.id ≠ svc.id) →
        Update repo svc = .error .alreadyExists) ∧
    (∀ (repo : MockRepo) (svc : Service) (s0 : Service),
        alookup repo svc.id = some s0 →
        (∀ p ∈ repo, p.2.name = svc.name → p.2.id = svc.id) →
        Update repo svc = .ok (aset repo svc.id svc)) := by
  refine ⟨?_, ?_, ?_⟩
  · rintro repo svc ⟨p, hp, hname⟩
    have hany : repo.any (fun p => decide (p.2.name = svc.name)) = true :=
      List.any_eq_true.mpr ⟨p, hp, by simpa using hname⟩
    simp [Create, hany]
  · rintro repo svc s0 hlook ⟨p, hp, hname, hid⟩
    have hnone : (alookup repo svc.id).isNone = false := by simp [hlook]
    have hany :
        repo.any (fun p => decide (p.2.name = svc.name) && !decide (p.2.id = svc.id)) = true :=
      List.any_eq_true.mpr ⟨p, hp, by simp [hname, hid]⟩
    simp [Update, hnone, hany]
  · intro repo svc s0 hlook hall
    have hnone : (alookup repo svc.id).isNone = false := by simp [hlook]
    have hany :
        repo.any (fun p => decide (p.2.name = svc.name) && !decide (p.2.id = svc.id)) = false := by
      rw [List.any_eq_false]
      intro p hp
      by_cases hn : p.2.name = svc.name
      · simp [hn, hall p hp hn]
      · simp [hn]
    simp [Update, hnone, hany]

/-- Claim C7 witness: the three registry facts evaluated on concrete
repositories — a duplicate-name create, a colliding rename, and an update
re-submitting the service's own name. -/
theorem c7_registry_name_uniqueness_witness :
    Create [("id1", c7svcA)] (mkService "" "users" true []) = .error .alreadyExists ∧
    Update [("id1", c7svcA), ("id2", c7svcB)]
      (mkService "id1" "orders" true []) = .error .alreadyExists ∧
    Update [("id1", c7svcA)] c7svcA = .ok (aset [("id1", c7svcA)] "id1" c7svcA) :=
  ⟨c7_registry_name_uniqueness.1 [("id1", c7svcA)] (mkService "" "users" true [])
      ⟨("id1", c7svcA), by simp, rfl⟩,
   c7_registry_name_uniqueness.2.1 [("id1", c7svcA), ("id2", c7svcB)]
      (mkService "id1" "orders" true []) c7svcA rfl
      ⟨("id2", c7svcB), by simp, rfl, by decide⟩,
   c7_registry_name_uniqueness.2.2 [("id1", c7svcA)] c7svcA c7svcA rfl (by decide)⟩

/-! ### Claim C8 -/

/-- Claim C8, counterexample: for a request whose headers map is non-nil,
after `TransformRequest` the header `X-Service-ID` added for the backend is
visible through the caller's original request, which therefore is not left
unchanged. -/
theorem c8_original_request_mutated_counterexample :
    hContains (((TransformRequest c8req c5svc).2).headers.getD []) "X-Service-ID" = true ∧
    (TransformRequest c8req c5svc).2 ≠ c8req :=
  ⟨rfl, by decide⟩

/-- Claim C8, amended: `TransformRequest` builds and returns a new `Request`
value, but shares the original's headers map instead of cloning it.  When
the original request's headers map is nil the original is left unchanged;
when it is non-nil, the transformed and original requests share one headers
map, so the `X-Service-ID` and `X-Service-Name` headers added for the
backend are visible through the caller's original request. -/
theorem c8_transform_request_aliasing (req : Request) (svc : Service) :
    (req.headers = none → (TransformRequest req svc).2 = req) ∧
    (∀ h, req.headers = some h →
      (TransformRequest req svc).2.headers = (TransformRequest req svc).1.headers ∧
      hContains ((TransformRequest req svc).2.headers.getD []) "X-Service-ID" = true ∧
      hContains ((TransformRequest req svc).2.headers.getD []) "X-Service-Name" = true) := by
  constructor
  · intro hn
    simp [TransformRequest, hn]
  · intro h hs
    refine ⟨?_, ?_, ?_⟩
    · simp [TransformRequest, hs]
    · simp only [TransformRequest, hs, Option.getD_some]
      exact hContains_aset _ _ _ _ (hContains_aset_self _ _ _)
    · simp only [TransformRequest, hs, Option.getD_some]
      exact hContains_aset_self _ _ _

/-- Claim C8 witness: the aliasing property evaluated on the request with a
non-nil headers map. -/
theorem c8_transform_request_aliasing_witness :
    (TransformRequest c8req c5svc).2.headers = (TransformRequest c8req c5svc).1.headers ∧
    hContains ((TransformRequest c8req c5svc).2.headers.getD []) "X-Service-ID" = true ∧
    hContains ((TransformRequest c8req c5svc).2.headers.getD []) "X-Service-Name" = true :=
  (c8_transform_request_aliasing c8req c5svc).2 [("Accept", ["text/plain"])] rfl

/-! ### Claim C9 -/

/-- Claim C9, counterexample: a rate-limiter key (prefix `ratelimit:`) is
present before `Clear` and gone after it — `Clear` scans with the pattern
`*`, which matches every key of the shared store. -/
theorem c9_clear_deletes_ratelimit_key_counterexample :
    alookup [(rlKey "s1" "/p" "ip", "2")] (rlKey "s1" "/p" "ip") = some "2" ∧
    alookup (CacheClear [(rlKey "s1" "/p" "ip", "2")]) (rlKey "s1" "/p" "ip") = none :=
  ⟨rfl, rfl⟩

/-- Claim C9, amended: `Clear` performs no namespace isolation at all — it
scans with the pattern `*`, which matches every key, and therefore deletes
every entry of the shared store, including the rate limiter's
`ratelimit:`-prefixed counters and any registry keys. -/
theorem c9_clear_wipes_entire_store : ∀ st : KVStore, CacheClear st = [] := by
  intro st
  induction st with
  | nil => rfl
  | cons p t ih =>
    have hg : globMatch ['*'] p.1.data = true := globMatch_star p.1.data
    have ih2 : List.filter (fun q => !globMatch ['*'] q.1.data) t = [] := ih
    simp [CacheClear, RedisClear, List.filter_cons, hg, ih2]

/-! ### Claim C10 -/

/-- Claim C10, counterexample: a custom claim under the key `sub` overwrites
the standard subject claim, because `GenerateToken` inserts the custom claims
after the standard ones; validating the generated token yields `sub = "bob"`,
not the `userID` argument `"alice"`. -/
theorem c10_custom_claims_override_counterexample :
    ValidateToken c10cfg 10 (GenerateToken c10cfg 0 "alice" [("sub", .jstr "bob")]) =
      .ok [("iss", .jstr "gw"), ("sub", .jstr "bob"), ("iat", .jnum 0), ("exp", .jnum 3600)] ∧
    ("bob" : String) ≠ "alice" :=
  ⟨rfl, by decide⟩

/-- Claim C10, amended: for every userID and custom-claims map that does not
itself bind the keys `sub`, `iss` or `exp`, `ValidateToken` applied to the
token produced by `GenerateToken` with the same secret key, at a validation
time before the configured expiration has elapsed, succeeds and returns a
claims map whose `sub` entry equals the userID and whose `iss` entry equals
the configured issuer. -/
theorem c10_token_round_trip (cfg : JWTConfig) (now validAt : Int) (userID : String)
    (custom : Claims)
    (hsub : alookup custom "sub" = none)
    (hiss : alookup custom "iss" = none)
    (hexp : alookup custom "exp" = none)
    (htime : validAt < now + cfg.expiration) :
    ValidateToken cfg validAt (GenerateToken cfg now userID custom) =
      .ok (GenerateToken cfg now userID custom).claims ∧
    alookup (GenerateToken cfg now userID custom).claims "sub" = some (.jstr userID) ∧
    alookup (GenerateToken cfg now userID custom).claims "iss" = some (.jstr cfg.issuer) := by
  have hsubL : alookup (GenerateToken cfg now userID custom).claims "sub"
      = some (.jstr userID) := by
    show alookup (custom.foldl (fun acc kv => aset acc kv.1 kv.2) _) "sub" = _
    rw [alookup_foldl_aset "sub" custom _ hsub]
    rfl
  have hissL : alookup (GenerateToken cfg now userID custom).claims "iss"
      = some (.jstr cfg.issuer) := by
    show alookup (custom.foldl (fun acc kv => aset acc kv.1 kv.2) _) "iss" = _
    rw [alookup_foldl_aset "iss" custom _ hiss]
    rfl
  have hexpL : alookup (GenerateToken cfg now userID custom).claims "exp"
      = some (.jnum (now + cfg.expiration)) := by
    show alookup (custom.foldl (fun acc kv => aset acc kv.1 kv.2) _) "exp" = _
    rw [alookup_foldl_aset "exp" custom _ hexp]
    rfl
  refine ⟨?_, hsubL, hissL⟩
  have halg : (GenerateToken cfg now userID custom).alg = "HS256" := rfl
  have hkey : (GenerateToken cfg now userID custom).signKey = cfg.secretKey := rfl
  unfold ValidateToken
  rw [halg, hkey, hexpL]
  simp [htime]

/-- Claim C10 witness: the round trip evaluated at a concrete configuration,
user and custom-claims map. -/
theorem c10_token_round_trip_witness :
    ValidateToken c10cfg 5 (GenerateToken c10cfg 0 "alice" [("role", .jstr "admin")]) =
      .ok (GenerateToken c10cfg 0 "alice" [("role", .jstr "admin")]).claims ∧
    alookup (GenerateToken c10cfg 0 "alice" [("role", .jstr "admin")]).claims "sub" =
      some (.jstr "alice") ∧
    alookup (GenerateToken c10cfg 0 "alice" [("role", .jstr "admin")]).claims "iss" =
      some (.jstr "gw") :=
  c10_token_round_trip c10cfg 0 5 "alice" [("role", .jstr "admin")] rfl rfl rfl (by decide)

end Gw
